import Mathlib

/-!
Verification of the model-routing utility (`Week 01/utils/router.py`).

The module is embedded shallowly:
* YAML values become the inductive `Yaml`; `yaml.safe_load` of a file is an
  abstract total function carried by the filesystem model `FS` (parse failures
  are outside the claims considered here).
* Python exceptions become the error type `PyErr` threaded through `Except`:
  `FileNotFoundError`, `KeyError`, and the `TypeError` Python raises when `in`
  is applied to `None`.
* Python substring membership `x in s` becomes `pyIn x s`, list membership
  becomes `List.contains`, and `dict` lookup becomes `List.lookup` on the
  association list of a `Yaml.map`.
* `str.lower()` becomes `pyLower` (the inputs of interest are ASCII).
* The filesystem is a pair of functions: which paths exist, and what YAML value
  the file at a path parses to.  The fallback location computed in the source
  from `Path(__file__).parent.parent / "config" / "models.yaml"` is a fixed
  path constant, `fallbackConfigPath`.
-/

namespace Router

/-- A YAML value as produced by `yaml.safe_load`: `None`, booleans, integers,
strings, sequences, and string-keyed mappings (association lists). -/
inductive Yaml where
  | null : Yaml
  | bool : Bool → Yaml
  | int : Int → Yaml
  | str : String → Yaml
  | list : List Yaml → Yaml
  | map : List (String × Yaml) → Yaml

/-- The Python error kinds the router can surface: `FileNotFoundError` with its
message, `KeyError` with its message, and the `TypeError` raised by `in` on a
non-container such as `None`. -/
inductive PyErr where
  | fileNotFound : String → PyErr
  | keyError : String → PyErr
  | typeError : PyErr

/-- Python substring membership `sub in s` on strings: `sub` occurs
contiguously in `s` (the empty string is a substring of every string, as in
Python). -/
def pyIn (sub s : String) : Bool :=
  decide (sub.data <:+: s.data)

/-- Python `str.lower()` (the identifiers involved are ASCII): lower-case every
character.  Stated on the character list so that it computes structurally. -/
def pyLower (s : String) : String :=
  ⟨s.data.map Char.toLower⟩

/-- Python membership `key in v` for a YAML value: key membership on a
mapping, substring on a string, element equality on a sequence, and a
`TypeError` on `None` and the other scalars. -/
def Yaml.hasKey : Yaml → String → Except PyErr Bool
  | .map es, key => .ok (es.any (fun e => e.1 == key))
  | .str s, key => .ok (pyIn key s)
  | .list xs, key => .ok (xs.any (fun v => match v with | .str t => t == key | _ => false))
  | _, _ => .error .typeError

/-- Python subscription `v[key]` with a string key: mapping lookup (raising
`KeyError` when absent), `TypeError` on anything that is not a mapping. -/
def Yaml.getKey : Yaml → String → Except PyErr Yaml
  | .map es, key =>
      match es.lookup key with
      | some v => .ok v
      | none => .error (.keyError key)
  | _, _ => .error .typeError

/-- Whether a YAML value is a mapping. -/
def Yaml.isMapping : Yaml → Bool
  | .map _ => true
  | _ => false

/-- The filesystem as the router observes it: which paths exist, and the YAML
value the file at a path parses to under `yaml.safe_load`. -/
structure FS where
  pathExists : String → Bool
  load : String → Yaml

/-- The fallback configuration location the source computes from its own
install position: `Path(__file__).parent.parent / "config" / "models.yaml"`,
i.e. `<project root>/config/models.yaml` for the `Week 01` project. -/
def fallbackConfigPath : String := "Week 01/config/models.yaml"

/-- Configuration-file resolution shared by `pick_model` and
`list_available_models`: use `config_path` if it exists, otherwise the
fallback location if that exists, otherwise nothing. -/
def resolveConfigFile (fs : FS) (config_path : String) : Option String :=
  if fs.pathExists config_path then some config_path
  else if fs.pathExists fallbackConfigPath then some fallbackConfigPath
  else none

/-- The `FileNotFoundError` message built by `pick_model`: both attempted
paths and the current working directory. -/
def configNotFoundMsg (config_path second cwd : String) : String :=
  "Model config not found. Tried:\n  - " ++ config_path ++ "\n  - " ++ second ++
    "\nCurrent working directory: " ++ cwd

/-- The `KeyError` message `pick_model` raises for an unknown provider. -/
def providerNotFoundMsg (provider config_path : String) : String :=
  "Provider \x27" ++ provider ++ "\x27 not found in " ++ config_path

/-- Tier inference from the technique string when no explicit tier is given,
exactly as in the body of `pick_model`. -/
def inferTier (technique : String) : String :=
  let technique_lower := pyLower technique
  if ["cot", "tot", "reason", "think"].any (fun x => pyIn x technique_lower) then
    "reason"
  else if ["strong", "complex", "advanced"].any (fun x => pyIn x technique_lower) then
    "strong"
  else
    "general"

/-- The tier `pick_model` works with: the explicit argument when supplied,
otherwise the one inferred from the technique. -/
def resolvedTier (technique : String) (tier : Option String) : String :=
  match tier with
  | some t => t
  | none => inferTier technique

/-- `pick_model(provider, technique, tier=None, config_path=...)`.  `cwd` is
the current working directory (used only in the not-found message).  Returns
the selected configuration entry or the Python error the source raises. -/
def pick_model (fs : FS) (cwd provider technique : String)
    (tier : Option String) (config_path : String) : Except PyErr Yaml :=
  match resolveConfigFile fs config_path with
  | none =>
      .error (.fileNotFound (configNotFoundMsg config_path fallbackConfigPath cwd))
  | some config_file =>
      let config := fs.load config_file
      match config.hasKey provider with
      | .error e => .error e
      | .ok mem =>
          if !mem then
            .error (.keyError (providerNotFoundMsg provider config_path))
          else
            let t := resolvedTier technique tier
            match config.getKey provider with
            | .error e => .error e
            | .ok prov =>
                match prov.hasKey t with
                | .error e => .error e
                | .ok tmem =>
                    let t := if tmem then t else "general"
                    prov.getKey t

/-- `list_available_models(config_path=...)`: the parsed configuration, or the
empty mapping when no configuration source exists at either location. -/
def list_available_models (fs : FS) (config_path : String) : Yaml :=
  match resolveConfigFile fs config_path with
  | none => .map []
  | some config_file => fs.load config_file

/-- `get_context_window(model)`: hardcoded ordered substring rules over the
lower-cased model identifier, defaulting to 8000. -/
def get_context_window (model : String) : Nat :=
  let model_lower := pyLower model
  if ["gpt-4o", "o3", "o1", "gpt-4"].any (fun x => pyIn x model_lower) then
    128000
  else if pyIn "gpt-3.5" model_lower then
    16385
  else if pyIn "gemini-3" model_lower then
    2000000
  else if pyIn "gemini-2" model_lower then
    2000000
  else if pyIn "gemini-1.5" model_lower then
    1000000
  else if pyIn "llama-3.1" model_lower || pyIn "llama-3.2" model_lower then
    131072
  else if pyIn "deepseek-r1" model_lower then
    65536
  else
    8000

/-- Modelled from the spec: the external collaborator state that
`should_use_reasoning_model` imports from `utils/config_loader.py`, a module
absent from the sources — the auto-route flag returned by
`should_auto_route_reasoning()` and the recognized reasoning-technique
keywords returned by `get_reasoning_techniques()`.  The spec treats both as
reconfigurable external state, so they are arbitrary values here. -/
structure RoutingConfig where
  autoRoute : Bool
  reasoning_techniques : List String

/-- `should_use_reasoning_model(technique)` with the external collaborator
state passed explicitly: false when auto-routing is off; otherwise an exact
membership check of the lower-cased technique in the keyword list, then a
substring check against each keyword. -/
def should_use_reasoning_model (rc : RoutingConfig) (technique : String) : Bool :=
  if !rc.autoRoute then
    false
  else
    let technique_lower := pyLower technique
    if rc.reasoning_techniques.contains technique_lower then
      true
    else
      rc.reasoning_techniques.any (fun keyword => pyIn keyword technique_lower)

/-- Tier entries of the sample openai provider. -/
def openaiEntries : List (String × Yaml) :=
  [("general", .str "gpt-4o-mini"), ("strong", .str "gpt-4o"),
   ("reason", .str "o3-mini")]

/-- Tier entries of the sample google provider (no "reason" tier). -/
def googleEntries : List (String × Yaml) :=
  [("general", .str "gemini-1.5-flash"), ("strong", .str "gemini-1.5-pro")]

/-- Entries of a sample configuration in the shape of `config/models.yaml`. -/
def sampleEntries : List (String × Yaml) :=
  [("openai", .map openaiEntries), ("google", .map googleEntries)]

/-- The sample configuration as a YAML value. -/
def sampleConfig : Yaml := .map sampleEntries

/-- A filesystem holding the sample configuration at the default path. -/
def sampleFS : FS :=
  { pathExists := fun p => p == "config/models.yaml", load := fun _ => sampleConfig }

/-- A filesystem with no files at all. -/
def emptyFS : FS :=
  { pathExists := fun _ => false, load := fun _ => .null }

/-- A filesystem where every path exists and every file parses to YAML null,
as an empty YAML file does under `yaml.safe_load`. -/
def nullFS : FS :=
  { pathExists := fun _ => true, load := fun _ => .null }

/-! ### Helper lemmas -/

theorem pyIn_iff (sub s : String) : pyIn sub s = true ↔ sub.data <:+: s.data := by
  simp [pyIn]

theorem any_pyIn_iff (kws : List String) (s : String) :
    kws.any (fun x => pyIn x s) = true ↔ ∃ x ∈ kws, x.data <:+: s.data := by
  simp [pyIn]

theorem lookup_imp_any (k : String) (v : Yaml) :
    ∀ es : List (String × Yaml), es.lookup k = some v →
      es.any (fun e => e.1 == k) = true := by
  intro es
  induction es with
  | nil => intro h; simp [List.lookup] at h
  | cons e es ih =>
      intro h
      obtain ⟨k1, v1⟩ := e
      rw [List.lookup_cons] at h
      cases hbeq : k == k1 with
      | true =>
          have : k1 = k := (eq_of_beq hbeq).symm
          simp [List.any_cons, this]
      | false =>
          rw [hbeq] at h
          simp only [List.any_cons, Bool.or_eq_true]
          exact Or.inr (ih h)

theorem any_imp_lookup (k : String) :
    ∀ es : List (String × Yaml), es.any (fun e => e.1 == k) = true →
      ∃ v, es.lookup k = some v := by
  intro es
  induction es with
  | nil => intro h; simp at h
  | cons e es ih =>
      intro h
      obtain ⟨k1, v1⟩ := e
      rw [List.lookup_cons]
      cases hbeq : k == k1 with
      | true => exact ⟨v1, rfl⟩
      | false =>
          simp only [List.any_cons, Bool.or_eq_true] at h
          rcases h with h | h
          · have hk : k1 = k := eq_of_beq h
            rw [hk] at hbeq
            simp at hbeq
          · exact ih h

theorem configNotFoundMsg_parts (p f w : String) :
    p.data <:+: (configNotFoundMsg p f w).data ∧
      f.data <:+: (configNotFoundMsg p f w).data ∧
      w.data <:+: (configNotFoundMsg p f w).data := by
  refine ⟨⟨"Model config not found. Tried:\n  - ".data,
            ("\n  - " ++ f ++ "\nCurrent working directory: " ++ w).data, ?_⟩,
          ⟨("Model config not found. Tried:\n  - " ++ p ++ "\n  - ").data,
            ("\nCurrent working directory: " ++ w).data, ?_⟩,
          ⟨("Model config not found. Tried:\n  - " ++ p ++ "\n  - " ++ f ++
              "\nCurrent working directory: ").data, ([] : List Char), ?_⟩⟩ <;>
    simp [configNotFoundMsg]

theorem inferTier_spec (technique : String) :
    inferTier technique =
      if ∃ x ∈ (["cot", "tot", "reason", "think"] : List String),
          x.data <:+: (pyLower technique).data then "reason"
      else if ∃ x ∈ (["strong", "complex", "advanced"] : List String),
          x.data <:+: (pyLower technique).data then "strong"
      else "general" := by
  by_cases h1 : ∃ x ∈ (["cot", "tot", "reason", "think"] : List String),
      x.data <:+: (pyLower technique).data
  · simp [inferTier, pyIn, h1]
  · by_cases h2 : ∃ x ∈ (["strong", "complex", "advanced"] : List String),
        x.data <:+: (pyLower technique).data
    · simp [inferTier, pyIn, h1, h2]
    · simp [inferTier, pyIn, h1, h2]

theorem pick_model_tier_congr (fs : FS) (cwd provider technique : String)
    (t1 t2 : Option String) (config_path : String)
    (h : resolvedTier technique t1 = resolvedTier technique t2) :
    pick_model fs cwd provider technique t1 config_path =
      pick_model fs cwd provider technique t2 config_path := by
  simp only [pick_model, h]

/-! ### Claim theorems -/

/-- C3: with an explicit tier argument, `pick_model` never performs keyword
inference on the technique string — the result is identical for any two
techniques, whatever keywords they contain. -/
theorem c3_explicit_tier_ignores_technique
    (fs : FS) (cwd provider t1 t2 tierArg config_path : String) :
    pick_model fs cwd provider t1 (some tierArg) config_path =
      pick_model fs cwd provider t2 (some tierArg) config_path := rfl

/-- C7: when neither the supplied path nor the fallback path exists,
`list_available_models` returns the empty mapping instead of failing. -/
theorem c7_missing_config_lists_empty (fs : FS) (config_path : String)
    (h1 : fs.pathExists config_path = false)
    (h2 : fs.pathExists fallbackConfigPath = false) :
    list_available_models fs config_path = Yaml.map [] := by
  simp [list_available_models, resolveConfigFile, h1, h2]

theorem c7_witness :
    list_available_models emptyFS "config/models.yaml" = Yaml.map [] :=
  c7_missing_config_lists_empty emptyFS "config/models.yaml" rfl rfl

/-- C8: `pick_model` is deterministic — over any two filesystems presenting
the same files with the same contents, identical argument tuples give
identical results. -/
theorem c8_pick_model_deterministic (fs1 fs2 : FS)
    (cwd provider technique config_path : String) (tier : Option String)
    (hE : fs1.pathExists = fs2.pathExists) (hL : fs1.load = fs2.load) :
    pick_model fs1 cwd provider technique tier config_path =
      pick_model fs2 cwd provider technique tier config_path := by
  cases fs1
  cases fs2
  cases hE
  cases hL
  rfl

theorem c8_witness :
    pick_model sampleFS "/w" "openai" "CoT" none "config/models.yaml" =
      pick_model sampleFS "/w" "openai" "CoT" none "config/models.yaml" :=
  c8_pick_model_deterministic sampleFS sampleFS "/w" "openai" "CoT"
    "config/models.yaml" none rfl rfl

/-- C9: when the configuration file exists but parses to YAML null (as an
empty file does), `list_available_models` returns that null value, which is
not a mapping — the declared mapping result type is violated. -/
theorem c9_null_config_list_not_mapping (fs : FS) (config_path : String)
    (hex : fs.pathExists config_path = true)
    (hnull : fs.load config_path = Yaml.null) :
    list_available_models fs config_path = Yaml.null ∧
      Yaml.isMapping (list_available_models fs config_path) = false := by
  have hmain : list_available_models fs config_path = Yaml.null := by
    simp [list_available_models, resolveConfigFile, hex, hnull]
  exact ⟨hmain, by rw [hmain]; rfl⟩

theorem c9_witness :
    list_available_models nullFS "config/models.yaml" = Yaml.null ∧
      Yaml.isMapping (list_available_models nullFS "config/models.yaml") = false :=
  c9_null_config_list_not_mapping nullFS "config/models.yaml" rfl rfl

/-- C10: when the configuration file exists but parses to YAML null,
`pick_model` fails with the generic `TypeError` produced by the `provider not
in config` membership test — for every provider, technique and tier — and
that error is distinct from the designed error kinds (the file-not-found and
key-lookup errors). -/
theorem c10_null_config_pick_type_error (fs : FS)
    (cwd provider technique config_path : String) (tier : Option String)
    (hex : fs.pathExists config_path = true)
    (hnull : fs.load config_path = Yaml.null) :
    pick_model fs cwd provider technique tier config_path =
        .error PyErr.typeError ∧
      (∀ m, PyErr.typeError ≠ PyErr.fileNotFound m) ∧
      (∀ m, PyErr.typeError ≠ PyErr.keyError m) := by
  refine ⟨?_, ?_, ?_⟩
  · simp [pick_model, resolveConfigFile, hex, hnull, Yaml.hasKey]
  · intro m h
    cases h
  · intro m h
    cases h

theorem c10_witness :
    pick_model nullFS "/w" "openai" "CoT" none "config/models.yaml" =
        .error PyErr.typeError ∧
      (∀ m, PyErr.typeError ≠ PyErr.fileNotFound m) ∧
      (∀ m, PyErr.typeError ≠ PyErr.keyError m) :=
  c10_null_config_pick_type_error nullFS "/w" "openai" "CoT"
    "config/models.yaml" none rfl rfl

/-- C1: when no explicit tier is given and the provider is a key of the
loaded configuration, `pick_model` behaves exactly as if called with the tier
dictated by the spec's keyword rule over the lower-cased technique
(first match wins): "reason" when it contains any of "cot", "tot", "reason",
"think" as a substring; else "strong" when it contains any of "strong",
"complex", "advanced"; else "general". -/
theorem c1_tier_inferred_from_keywords
    (fs : FS) (cwd provider technique config_path cf : String)
    (es : List (String × Yaml))
    (hres : resolveConfigFile fs config_path = some cf)
    (hload : fs.load cf = Yaml.map es)
    (hprov : es.any (fun e => e.1 == provider) = true) :
    pick_model fs cwd provider technique none config_path =
      pick_model fs cwd provider technique
        (some
          (if ∃ x ∈ (["cot", "tot", "reason", "think"] : List String),
              x.data <:+: (pyLower technique).data then "reason"
           else if ∃ x ∈ (["strong", "complex", "advanced"] : List String),
              x.data <:+: (pyLower technique).data then "strong"
           else "general"))
        config_path :=
  pick_model_tier_congr fs cwd provider technique none (some _) config_path
    (inferTier_spec technique)

theorem c1_witness :
    pick_model sampleFS "/home/user" "openai" "CoT-Prompting" none
        "config/models.yaml" =
      pick_model sampleFS "/home/user" "openai" "CoT-Prompting"
        (some
          (if ∃ x ∈ (["cot", "tot", "reason", "think"] : List String),
              x.data <:+: (pyLower "CoT-Prompting").data then "reason"
           else if ∃ x ∈ (["strong", "complex", "advanced"] : List String),
              x.data <:+: (pyLower "CoT-Prompting").data then "strong"
           else "general"))
        "config/models.yaml" :=
  c1_tier_inferred_from_keywords sampleFS "/home/user" "openai" "CoT-Prompting"
    "config/models.yaml" "config/models.yaml" sampleEntries rfl rfl rfl

/-- C2: when the resolved tier — explicit or inferred — is not a key of the
provider's entry while "general" is, `pick_model` does not fail and returns
the provider's "general" entry. -/
theorem c2_absent_tier_falls_back_to_general
    (fs : FS) (cwd provider technique config_path cf : String)
    (tier : Option String) (es pes : List (String × Yaml)) (v : Yaml)
    (hres : resolveConfigFile fs config_path = some cf)
    (hload : fs.load cf = Yaml.map es)
    (hprov : es.lookup provider = some (Yaml.map pes))
    (htier : pes.any (fun e => e.1 == resolvedTier technique tier) = false)
    (hgen : pes.lookup "general" = some v) :
    pick_model fs cwd provider technique tier config_path = Except.ok v := by
  have hmem : es.any (fun e => e.1 == provider) = true :=
    lookup_imp_any provider (Yaml.map pes) es hprov
  simp [pick_model, hres, hload, Yaml.hasKey, Yaml.getKey, hmem, hprov, htier,
    hgen]

theorem c2_witness :
    pick_model sampleFS "/w" "google" "CoT" none
        "config/models.yaml" = Except.ok (Yaml.str "gemini-1.5-flash") :=
  c2_absent_tier_falls_back_to_general sampleFS "/w" "google" "CoT"
    "config/models.yaml" "config/models.yaml" none sampleEntries googleEntries
    (Yaml.str "gemini-1.5-flash") rfl rfl rfl (by decide) rfl

/-- C4: `pick_model` fails in exactly two distinguishable ways for well-formed
configurations: when neither candidate path exists it raises a file-not-found
error whose message contains both attempted paths and the current working
directory, and when the configuration loads as a mapping without the provider
key it raises a provider-not-found key error; when the provider is present
and its entry defines "general", the call succeeds. -/
theorem c4_error_kinds :
    (∀ (fs : FS) (cwd provider technique config_path : String)
        (tier : Option String),
      resolveConfigFile fs config_path = none →
        pick_model fs cwd provider technique tier config_path =
            .error (.fileNotFound
              (configNotFoundMsg config_path fallbackConfigPath cwd)) ∧
          config_path.data <:+:
            (configNotFoundMsg config_path fallbackConfigPath cwd).data ∧
          fallbackConfigPath.data <:+:
            (configNotFoundMsg config_path fallbackConfigPath cwd).data ∧
          cwd.data <:+:
            (configNotFoundMsg config_path fallbackConfigPath cwd).data) ∧
    (∀ (fs : FS) (cwd provider technique config_path cf : String)
        (tier : Option String) (es : List (String × Yaml)),
      resolveConfigFile fs config_path = some cf →
      fs.load cf = Yaml.map es →
      es.any (fun e => e.1 == provider) = false →
        pick_model fs cwd provider technique tier config_path =
          .error (.keyError (providerNotFoundMsg provider config_path))) ∧
    (∀ (fs : FS) (cwd provider technique config_path cf : String)
        (tier : Option String) (es pes : List (String × Yaml)) (v : Yaml),
      resolveConfigFile fs config_path = some cf →
      fs.load cf = Yaml.map es →
      es.lookup provider = some (Yaml.map pes) →
      pes.lookup "general" = some v →
        ∃ r, pick_model fs cwd provider technique tier config_path =
          Except.ok r) := by
  refine ⟨?_, ?_, ?_⟩
  · intro fs cwd provider technique config_path tier hres
    obtain ⟨hp, hf, hw⟩ :=
      configNotFoundMsg_parts config_path fallbackConfigPath cwd
    refine ⟨?_, hp, hf, hw⟩
    simp [pick_model, hres]
  · intro fs cwd provider technique config_path cf tier es hres hload hany
    simp [pick_model, hres, hload, Yaml.hasKey, hany]
  · intro fs cwd provider technique config_path cf tier es pes v hres hload
      hprov hgen
    have hmem : es.any (fun e => e.1 == provider) = true :=
      lookup_imp_any provider (Yaml.map pes) es hprov
    cases htier : pes.any (fun e => e.1 == resolvedTier technique tier) with
    | true =>
        obtain ⟨w, hw⟩ := any_imp_lookup (resolvedTier technique tier) pes htier
        exact ⟨w, by
          simp [pick_model, hres, hload, Yaml.hasKey, Yaml.getKey, hmem, hprov,
            htier, hw]⟩
    | false =>
        exact ⟨v, by
          simp [pick_model, hres, hload, Yaml.hasKey, Yaml.getKey, hmem, hprov,
            htier, hgen]⟩

theorem c4_witness :
    pick_model emptyFS "/w" "openai" "few-shot" none "config/models.yaml" =
        .error (.fileNotFound
          (configNotFoundMsg "config/models.yaml" fallbackConfigPath "/w")) ∧
      pick_model sampleFS "/w" "mistral" "few-shot" none "config/models.yaml" =
        .error (.keyError (providerNotFoundMsg "mistral" "config/models.yaml")) ∧
      ∃ r, pick_model sampleFS "/w" "openai" "CoT" none "config/models.yaml" =
        Except.ok r :=
  ⟨(c4_error_kinds.1 emptyFS "/w" "openai" "few-shot" "config/models.yaml"
      none rfl).1,
   c4_error_kinds.2.1 sampleFS "/w" "mistral" "few-shot" "config/models.yaml"
     "config/models.yaml" none sampleEntries rfl rfl rfl,
   c4_error_kinds.2.2 sampleFS "/w" "openai" "CoT" "config/models.yaml"
     "config/models.yaml" none sampleEntries openaiEntries
     (Yaml.str "gpt-4o-mini") rfl rfl rfl rfl⟩

/-- C5: `get_context_window` is a pure total function: it returns 128000 on
"gpt-4o-mini", 1000000 on "gemini-1.5-pro", 8000 on "claude-3", and 8000 for
every model identifier whose lower-cased form contains none of the table's
patterns as a substring. -/
theorem c5_context_window_rules :
    get_context_window "gpt-4o-mini" = 128000 ∧
      get_context_window "gemini-1.5-pro" = 1000000 ∧
      get_context_window "claude-3" = 8000 ∧
      ∀ model : String,
        (∀ pat ∈ (["gpt-4o", "o3", "o1", "gpt-4", "gpt-3.5", "gemini-3",
            "gemini-2", "gemini-1.5", "llama-3.1", "llama-3.2",
            "deepseek-r1"] : List String),
          ¬ pat.data <:+: (pyLower model).data) →
        get_context_window model = 8000 := by
  refine ⟨by decide, by decide, by decide, ?_⟩
  intro model h
  have hf : ∀ pat ∈ (["gpt-4o", "o3", "o1", "gpt-4", "gpt-3.5", "gemini-3",
      "gemini-2", "gemini-1.5", "llama-3.1", "llama-3.2",
      "deepseek-r1"] : List String), pyIn pat (pyLower model) = false := by
    intro pat hp
    rw [pyIn]
    exact decide_eq_false (h pat hp)
  simp [get_context_window,
    hf "gpt-4o" (by simp), hf "o3" (by simp), hf "o1" (by simp),
    hf "gpt-4" (by simp), hf "gpt-3.5" (by simp), hf "gemini-3" (by simp),
    hf "gemini-2" (by simp), hf "gemini-1.5" (by simp),
    hf "llama-3.1" (by simp), hf "llama-3.2" (by simp),
    hf "deepseek-r1" (by simp)]

theorem c5_witness :
    (∀ pat ∈ (["gpt-4o", "o3", "o1", "gpt-4", "gpt-3.5", "gemini-3",
        "gemini-2", "gemini-1.5", "llama-3.1", "llama-3.2",
        "deepseek-r1"] : List String),
      ¬ pat.data <:+: (pyLower "mistral-7b").data) ∧
      get_context_window "mistral-7b" = 8000 :=
  ⟨by decide, c5_context_window_rules.2.2.2 "mistral-7b" (by decide)⟩

/-- C6: `should_use_reasoning_model` returns false for every technique when
the auto-route flag is off; when the flag is on, it returns true exactly when
the lower-cased technique equals one of the configured reasoning keywords or
contains one of them as a substring. -/
theorem c6_auto_route_flag_and_keywords :
    (∀ (kws : List String) (technique : String),
      should_use_reasoning_model ⟨false, kws⟩ technique = false) ∧
    (∀ (kws : List String) (technique : String),
      should_use_reasoning_model ⟨true, kws⟩ technique = true ↔
        ∃ k ∈ kws, k = pyLower technique ∨
          k.data <:+: (pyLower technique).data) := by
  constructor
  · intro kws technique
    rfl
  · intro kws technique
    cases hc : kws.contains (pyLower technique) with
    | true =>
        have hmem : pyLower technique ∈ kws := by
          obtain ⟨x, hx, hbeq⟩ := List.contains_iff_exists_mem_beq.mp hc
          rw [eq_of_beq hbeq]
          exact hx
        constructor
        · intro _
          exact ⟨pyLower technique, hmem, Or.inl rfl⟩
        · intro _
          have hu : should_use_reasoning_model ⟨true, kws⟩ technique =
              (if kws.contains (pyLower technique) = true then true
               else kws.any fun keyword => pyIn keyword (pyLower technique)) :=
            rfl
          rw [hu, if_pos hc]
    | false =>
        have hu : should_use_reasoning_model ⟨true, kws⟩ technique =
            (if kws.contains (pyLower technique) = true then true
             else kws.any fun keyword => pyIn keyword (pyLower technique)) :=
          rfl
        rw [hu, if_neg (by rw [hc]; exact Bool.false_ne_true), any_pyIn_iff]
        constructor
        · rintro ⟨k, hk, hinf⟩
          exact ⟨k, hk, Or.inr hinf⟩
        · rintro ⟨k, hk, he | hinf⟩
          · refine ⟨k, hk, ?_⟩
            rw [he]
          · exact ⟨k, hk, hinf⟩

end Router
